import Mathlib

/-!
Verification of the Anchor-Kit Configuration Manager (`src/core/config.ts`)
and its error taxonomy (`src/core/errors.ts`) against the natural-language
specification.

The development is a shallow embedding of the TypeScript source:

* a generic JavaScript-value model (`JsVal`) embeds `AnchorConfig.deepFreeze`
  and the host language's mutation semantics on (possibly frozen) objects;
* a typed model (`PartialConfig` / `AnchorKitConfig`) embeds
  `AnchorConfig.mergeWithDefaults`, the accessors `getAsset`,
  `getKycRequiredFields`, `isNetworkPassphrase`, and `AnchorConfig.validate`;
* `AnchorKitError` / `ConfigurationError` embed the error classes.

JavaScript `undefined` is modelled as `Option.none`; JavaScript string
truthiness (`undefined` and `""` are falsy) is `strTruthy`.  The host `URL`
constructor is an external interface of the program and is modelled as an
explicit parameter (`UrlEnv`).
-/

namespace AnchorKit

/-! ## JavaScript value model and the Immutability Snapshotter

`JsVal` models a JavaScript value tree: `prim` covers primitives (and `null`),
`obj` covers objects and arrays (an array is an object whose keys are the
indices), each carrying its `Object.isFrozen` flag.  `deepFreeze` embeds
`AnchorConfig.deepFreeze`: it freezes children first, recursing only into
child objects that are not already frozen, then freezes the node itself.
`setAtPath` / `deleteAtPath` model a property write / `delete` on the object
reached by a key path: on a frozen object the operation fails or is silently
ignored (JS sloppy/strict mode), i.e. the tree is unchanged. -/

inductive JsVal where
  | prim (s : String)
  | obj (frozen : Bool) (fields : List (String × JsVal))
deriving Repr

mutual

/-- Embedding of `AnchorConfig.deepFreeze`: on a non-object, return it
unchanged; on an object, process every own property first, then freeze. -/
def deepFreeze : JsVal → JsVal
  | .prim s => .prim s
  | .obj _ fs => .obj true (deepFreezeFields fs)

/-- Per-property step of `deepFreeze`: recurse exactly when the value is an
object that is not already frozen (`value && typeof value === 'object' &&
!Object.isFrozen(value)`). -/
def deepFreezeVal : JsVal → JsVal
  | .prim s => .prim s
  | .obj true gs => .obj true gs
  | .obj false gs => .obj true (deepFreezeFields gs)

/-- Iteration of `deepFreezeVal` over `Object.getOwnPropertyNames`. -/
def deepFreezeFields : List (String × JsVal) → List (String × JsVal)
  | [] => []
  | (k, v) :: rest => (k, deepFreezeVal v) :: deepFreezeFields rest

end

/-- Property lookup on an object's field list. -/
def lookupField : List (String × JsVal) → String → Option JsVal
  | [], _ => none
  | (k, v) :: rest, key => if k == key then some v else lookupField rest key

/-- Read of the value at a key path (`undefined`/missing reads are `none`). -/
def getPath : JsVal → List String → Option JsVal
  | v, [] => some v
  | .prim _, _ :: _ => none
  | .obj _ fs, k :: rest =>
    match lookupField fs k with
    | none => none
    | some child => getPath child rest

/-- Rewriting of the value stored under an existing key. -/
def mapField (key : String) (f : JsVal → JsVal) :
    List (String × JsVal) → List (String × JsVal)
  | [] => []
  | (k, v) :: rest =>
    if k == key then (k, f v) :: rest else (k, v) :: mapField key f rest

/-- Property assignment on a non-frozen object: overwrite an existing key or
add a new one. -/
def updateField (key : String) (nv : JsVal) :
    List (String × JsVal) → List (String × JsVal)
  | [] => [(key, nv)]
  | (k, v) :: rest =>
    if k == key then (k, nv) :: rest else (k, v) :: updateField key nv rest

/-- Removal of a key from a non-frozen object's field list. -/
def deleteField (key : String) : List (String × JsVal) → List (String × JsVal)
  | [] => []
  | (k, v) :: rest => if k == key then rest else (k, v) :: deleteField key rest

/-- Attempted property write `root.p1.p2...pn = nv`.  The write succeeds only
when the owning object is not frozen; on a frozen owner it fails or is
silently ignored, leaving every value unchanged.  Navigation never depends on
the frozen flags of the ancestors (JavaScript semantics: a frozen parent does
not protect a mutable child). -/
def setAtPath : JsVal → List String → JsVal → JsVal
  | v, [], _ => v
  | .prim s, _ :: _, _ => .prim s
  | .obj frozen fs, [k], nv =>
    if frozen then .obj frozen fs else .obj frozen (updateField k nv fs)
  | .obj frozen fs, k :: k2 :: rest, nv =>
    .obj frozen (mapField k (fun c => setAtPath c (k2 :: rest) nv) fs)

/-- Attempted `delete root.p1...pn`, failing or ignored on a frozen owner. -/
def deleteAtPath : JsVal → List String → JsVal
  | v, [] => v
  | .prim s, _ :: _ => .prim s
  | .obj frozen fs, [k] =>
    if frozen then .obj frozen fs else .obj frozen (deleteField k fs)
  | .obj frozen fs, k :: k2 :: rest =>
    .obj frozen (mapField k (fun c => deleteAtPath c (k2 :: rest)) fs)

mutual

/-- Every object in the tree, the root included, is frozen. -/
def allFrozen : JsVal → Bool
  | .prim _ => true
  | .obj frozen fs => frozen && allFrozenFields fs

/-- List version of `allFrozen`. -/
def allFrozenFields : List (String × JsVal) → Bool
  | [] => true
  | (_, v) :: rest => allFrozen v && allFrozenFields rest

end

mutual

/-- No object in the tree is frozen (the caller supplied nothing pre-frozen). -/
def noFrozen : JsVal → Bool
  | .prim _ => true
  | .obj frozen fs => !frozen && noFrozenFields fs

/-- List version of `noFrozen`. -/
def noFrozenFields : List (String × JsVal) → Bool
  | [] => true
  | (_, v) :: rest => noFrozen v && noFrozenFields rest

end

/-! ## Typed configuration model (`src/types/config.ts`)

`Option` models a field that may be `undefined`.  `KeyState` models the
distinction the constructor makes for the top-level `network` key via
`Object.prototype.hasOwnProperty`: the key may be absent, present with an
`undefined` value, or present with an object value. -/

/-- JS string truthiness: `undefined` and the empty string are falsy. -/
def strTruthy : Option String → Bool
  | none => false
  | some s => s != ""

/-- Embedding of `x || d` for a string-or-undefined `x` and string default. -/
def orDefaultStr (x : Option String) (d : String) : String :=
  match x with
  | none => d
  | some s => if s == "" then d else s

/-- Embedding of `x || y` where both sides are string-or-undefined. -/
def orElseTruthy (x : Option String) (y : Option String) : Option String :=
  if strTruthy x then x else y

/-- Presence state of an own property of the input object. -/
inductive KeyState (α : Type) where
  | absent
  | undef
  | val (a : α)
deriving Repr, DecidableEq

/-- Partial `NetworkConfig` as supplied by the caller. -/
structure PartialNetworkConfig where
  network : Option String := none
  horizonUrl : Option String := none
  networkPassphrase : Option String := none
deriving Repr, DecidableEq

/-- Resolved `NetworkConfig` produced by `mergeWithDefaults` (the identifier
is always a string after merging; the passphrase may still be `undefined`
when the identifier is outside the default-passphrase table). -/
structure NetworkConfig where
  network : String
  horizonUrl : Option String := none
  networkPassphrase : Option String := none
deriving Repr, DecidableEq

/-- `ServerConfig`: all fields optional, passed through unchanged. -/
structure ServerConfig where
  host : Option String := none
  port : Option Int := none
  debug : Option Bool := none
  interactiveDomain : Option String := none
  corsOrigins : Option (List String) := none
  requestTimeout : Option Int := none
deriving Repr, DecidableEq

/-- `SecurityConfig`: the three secrets are typed as required strings but are
checked for JS falsiness (absent or empty) by the validator. -/
structure SecurityConfig where
  sep10SigningKey : Option String := none
  interactiveJwtSecret : Option String := none
  distributionAccountSecret : Option String := none
  challengeExpirationSeconds : Option Int := none
  enableClientAttribution : Option Bool := none
  webhookSecret : Option String := none
  verifyWebhookSignatures : Option Bool := none
deriving Repr, DecidableEq

/-- One configured Stellar `Asset`. -/
structure Asset where
  code : String
  issuer : String
  name : Option String := none
  deposits_enabled : Option Bool := none
  withdrawals_enabled : Option Bool := none
  min_amount : Option Int := none
  max_amount : Option Int := none
deriving Repr, DecidableEq

/-- `AssetsConfig`: the asset list plus optional currency data. -/
structure AssetsConfig where
  assets : Option (List Asset) := none
  defaultCurrency : Option String := none
  assetMapping : Option (List (String × String)) := none
deriving Repr, DecidableEq

/-- Nested database descriptor of `FrameworkConfig`. -/
structure DatabaseConfig where
  provider : Option String := none
  url : Option String := none
  schema : Option String := none
deriving Repr, DecidableEq

/-- `FrameworkConfig`: mandatory database descriptor, optional plugin list. -/
structure FrameworkConfig where
  database : Option DatabaseConfig := none
  plugins : Option (List String) := none
deriving Repr, DecidableEq

/-- `KycConfig`: optional KYC enforcement settings, passed through unchanged. -/
structure KycConfig where
  level : Option String := none
  requireDocuments : Option Bool := none
  requireName : Option Bool := none
  requireAddress : Option Bool := none
  requireEmail : Option Bool := none
  requirePhoneNumber : Option Bool := none
  requireBirthDate : Option Bool := none
  maxAge : Option Int := none
  minAge : Option Int := none
deriving Repr, DecidableEq

/-- `MetadataConfig`: only `tomlUrl` is consulted by the validator. -/
structure MetadataConfig where
  tomlUrl : Option String := none
deriving Repr, DecidableEq

/-- Postal address inside the operational section. -/
structure OperationalAddress where
  street : Option String := none
  city : Option String := none
  state : Option String := none
  postal_code : Option String := none
  country : Option String := none
deriving Repr, DecidableEq

/-- Partial `OperationalConfig` as supplied by the caller. -/
structure PartialOperationalConfig where
  name : Option String := none
  website : Option String := none
  supportEmail : Option String := none
  address : Option OperationalAddress := none
  webhooksEnabled : Option Bool := none
  queueBackend : Option String := none
  redisUrl : Option String := none
  corsEnabled : Option Bool := none
  transactionRetentionDays : Option Int := none
deriving Repr, DecidableEq

/-- Resolved `OperationalConfig` produced by `mergeWithDefaults`: the four
defaulted fields are always present, the others keep `undefined` when
unsupplied. -/
structure OperationalConfig where
  name : Option String := none
  website : Option String := none
  supportEmail : Option String := none
  address : Option OperationalAddress := none
  webhooksEnabled : Bool
  queueBackend : String
  redisUrl : Option String := none
  corsEnabled : Bool
  transactionRetentionDays : Int
deriving Repr, DecidableEq

/-- Partial `AnchorKitConfig`, the constructor's input.  `kycRequired` is a
record from asset code to the list of required field names. -/
structure PartialConfig where
  network : KeyState PartialNetworkConfig := .absent
  server : Option ServerConfig := none
  security : Option SecurityConfig := none
  assets : Option AssetsConfig := none
  kyc : Option KycConfig := none
  kycRequired : Option (List (String × List String)) := none
  operational : Option PartialOperationalConfig := none
  metadata : Option MetadataConfig := none
  framework : Option FrameworkConfig := none
deriving Repr, DecidableEq

/-- Resolved `AnchorKitConfig` held by the manager after merging: `network`
may be `undefined` (the preserved-absence case), `operational` is always an
object, and every other section is the caller's value unchanged. -/
structure AnchorKitConfig where
  network : Option NetworkConfig
  server : Option ServerConfig
  security : Option SecurityConfig
  assets : Option AssetsConfig
  kyc : Option KycConfig
  kycRequired : Option (List (String × List String))
  operational : OperationalConfig
  metadata : Option MetadataConfig
  framework : Option FrameworkConfig
deriving Repr, DecidableEq

/-! ## Defaulting Engine (`AnchorConfig.mergeWithDefaults`) -/

/-- The fixed `defaultNetworkPassphrases` record: an index access with any
other key yields `undefined`. -/
def defaultNetworkPassphrases : String → Option String
  | "public" => some "Public Global Stellar Network ; September 2015"
  | "testnet" => some "Test SDF Network ; September 2015"
  | "futurenet" => some "Test SDF Future Network ; Fall 2022"
  | _ => none

/-- Network part of `mergeWithDefaults`: `network` is left `undefined` only
when the key is present with an `undefined` value (`hasNetworkProp &&
typeof networkInput === 'undefined'`); in every other case — the key being
entirely absent included — a network object is built with the identifier
defaulted to `'testnet'` and the passphrase defaulted via the lookup table. -/
def mergeNetwork (ks : KeyState PartialNetworkConfig) : Option NetworkConfig :=
  match ks with
  | .undef => none
  | .absent =>
    some
      { network := orDefaultStr none "testnet"
        horizonUrl := none
        networkPassphrase :=
          orElseTruthy none (defaultNetworkPassphrases (orDefaultStr none "testnet")) }
  | .val ni =>
    some
      { network := orDefaultStr ni.network "testnet"
        horizonUrl := ni.horizonUrl
        networkPassphrase :=
          orElseTruthy ni.networkPassphrase
            (defaultNetworkPassphrases (orDefaultStr ni.network "testnet")) }

/-- Embedding of `x ?? d` (nullish coalescing) at `Option` types. -/
def coalesce {α : Type} (x : Option α) (d : α) : α :=
  match x with
  | none => d
  | some a => a

/-- Operational part of `mergeWithDefaults`: built field by field with the
four listed defaults applied through `??`. -/
def mergeOperational (oi : Option PartialOperationalConfig) : OperationalConfig :=
  { name := oi.bind (fun o => o.name)
    website := oi.bind (fun o => o.website)
    supportEmail := oi.bind (fun o => o.supportEmail)
    address := oi.bind (fun o => o.address)
    webhooksEnabled := coalesce (oi.bind (fun o => o.webhooksEnabled)) true
    queueBackend := coalesce (oi.bind (fun o => o.queueBackend)) "memory"
    redisUrl := oi.bind (fun o => o.redisUrl)
    corsEnabled := coalesce (oi.bind (fun o => o.corsEnabled)) true
    transactionRetentionDays :=
      coalesce (oi.bind (fun o => o.transactionRetentionDays)) 90 }

/-- Embedding of `AnchorConfig.mergeWithDefaults`: the network and
operational sections are merged; every other section keeps the caller's
original value. -/
def mergeWithDefaults (input : PartialConfig) : AnchorKitConfig :=
  { network := mergeNetwork input.network
    server := input.server
    security := input.security
    assets := input.assets
    kyc := input.kyc
    kycRequired := input.kycRequired
    operational := mergeOperational input.operational
    metadata := input.metadata
    framework := input.framework }

/-- The empty object `{}` as a partial configuration (every key absent). -/
def emptyInput : PartialConfig := {}

/-- Embedding of the `AnchorConfig` constructor: a `null`/`undefined` input
is replaced by `{}` (`config || {}`), the result is merged and frozen, and
the manager's `config` field therefore always holds an object (`some`).
Freezing is the identity on the typed model; its observable behaviour is
studied on `JsVal`. -/
def constructConfig (input : Option PartialConfig) : Option AnchorKitConfig :=
  some (mergeWithDefaults (coalesce input emptyInput))

/-! ## Configuration Manager accessors -/

/-- Embedding of `AnchorConfig.getAsset`: case-sensitive linear scan of
`this.config.assets?.assets` (optional chaining yields `undefined` when the
section or the list is missing). -/
def getAsset (c : AnchorKitConfig) (code : String) : Option Asset :=
  match c.assets with
  | none => none
  | some a =>
    match a.assets with
    | none => none
    | some l => l.find? (fun x => x.code == code)

/-- Embedding of `AnchorConfig.getKycRequiredFields`:
`this.config.kycRequired?.[code]`, returned when it is an array and `[]`
otherwise. -/
def getKycRequiredFields (c : AnchorKitConfig) (code : String) : List String :=
  match c.kycRequired with
  | none => []
  | some m =>
    match m.lookup code with
    | none => []
    | some fields => fields

/-- Embedding of `AnchorConfig.isNetworkPassphrase`: compare against the
configured passphrase when truthy, otherwise against the fixed default for
the active identifier, and return `false` on an unrecognized identifier. -/
def isNetworkPassphrase (c : AnchorKitConfig) (passphrase : String) : Bool :=
  let configuredPassphrase := c.network.bind (fun n => n.networkPassphrase)
  if strTruthy configuredPassphrase then
    passphrase == coalesce configuredPassphrase ""
  else
    match c.network.map (fun n => n.network) with
    | some "public" => passphrase == "Public Global Stellar Network ; September 2015"
    | some "testnet" => passphrase == "Test SDF Network ; September 2015"
    | some "futurenet" => passphrase == "Test SDF Future Network ; Fall 2022"
    | _ => false

/-! ## Error taxonomy (`src/core/errors.ts`)

`AnchorKitError` embeds the abstract base class: a message, a fixed numeric
status, a fixed machine code, and an optional free-form context map (whose
values are arbitrary JS values).  `toJSON` embeds the serializer: `error`
and `message` are always present; the `context` key is spread in only when
`globalThis.process` exists and `NODE_ENV === 'development'`. -/

/-- Free-form context map (`Record<string, unknown>`). -/
def ContextMap : Type := List (String × JsVal)

/-- Base error shape shared by every error kind in the taxonomy. -/
structure AnchorKitError where
  statusCode : Nat
  errorCode : String
  message : String
  context : Option ContextMap

/-- Host process environment: `globalThis.process` may be undefined, and
`process.env.NODE_ENV` may be undefined. -/
inductive ProcessEnv where
  | noProcess
  | withEnv (nodeEnv : Option String)

/-- The development-like-mode test used by `toJSON`. -/
def isDevelopmentMode : ProcessEnv → Bool
  | .withEnv (some "development") => true
  | _ => false

/-- Serialized form of an error.  The `context` field records whether the
`context` key was spread into the object at all (outer `Option`) and, when
it was, the possibly-undefined context value (inner `Option`). -/
structure ErrorJSON where
  error : String
  message : String
  context : Option (Option ContextMap)

/-- Embedding of `AnchorKitError.toJSON`. -/
def toJSON (penv : ProcessEnv) (e : AnchorKitError) : ErrorJSON :=
  { error := e.errorCode
    message := e.message
    context := if isDevelopmentMode penv then some e.context else none }

/-- Embedding of the `ConfigurationError` subclass: fixed status `500` and
fixed code `"INVALID_CONFIG"`. -/
def ConfigurationError (message : String)
    (context : Option ContextMap := none) : AnchorKitError :=
  { statusCode := 500
    errorCode := "INVALID_CONFIG"
    message := message
    context := context }

/-! ## Validator (`AnchorConfig.validate`)

The host `URL` constructor is an external interface: `UrlEnv.parse` returns
the parsed URL's protocol, or `none` when the constructor throws or is not
available on `globalThis`. -/

/-- Host URL-parsing environment. -/
structure UrlEnv where
  parse : String → Option String

/-- Embedding of `AnchorConfig.isValidUrl`: parse and require an `http:` or
`https:` protocol; any failure yields `false`. -/
def isValidUrl (env : UrlEnv) (urlString : String) : Bool :=
  match env.parse urlString with
  | none => false
  | some protocol => protocol == "http:" || protocol == "https:"

/-- The recognized database URL schemes. -/
def validSchemes : List String :=
  ["postgresql:", "postgres:", "mysql:", "mysql2:", "sqlite:", "file:"]

/-- Embedding of JS `s.startsWith(pre)` on the character sequences. -/
def strStartsWith (s pre : String) : Bool := pre.data.isPrefixOf s.data

/-- Embedding of `AnchorConfig.isValidDatabaseUrl`: falsy strings are
rejected, recognized schemes are accepted outright, anything else must parse
as a generic URI. -/
def isValidDatabaseUrl (env : UrlEnv) (urlString : Option String) : Bool :=
  match urlString with
  | none => false
  | some s =>
    if s == "" then false
    else if validSchemes.any (fun scheme => strStartsWith s scheme) then true
    else (env.parse s).isSome

/-- Embedding of the body of `AnchorConfig.validate` after the `this.config`
guard: the fixed, fail-fast check pipeline, returning the message of the
first failing check. -/
def validateConfig (env : UrlEnv) (c : AnchorKitConfig) : Except AnchorKitError Unit :=
  match c.network with
  | none => .error (ConfigurationError "Missing required top-level field: network")
  | some network =>
  match c.server with
  | none => .error (ConfigurationError "Missing required top-level field: server")
  | some server =>
  match c.security with
  | none => .error (ConfigurationError "Missing required top-level field: security")
  | some security =>
  match c.assets with
  | none => .error (ConfigurationError "Missing required top-level field: assets")
  | some assets =>
  match c.framework with
  | none => .error (ConfigurationError "Missing required top-level field: framework")
  | some framework =>
  if !(strTruthy security.sep10SigningKey) then
    .error (ConfigurationError "Missing required secret: security.sep10SigningKey")
  else if !(strTruthy security.interactiveJwtSecret) then
    .error (ConfigurationError "Missing required secret: security.interactiveJwtSecret")
  else if !(strTruthy security.distributionAccountSecret) then
    .error (ConfigurationError "Missing required secret: security.distributionAccountSecret")
  else if (match assets.assets with
           | none => true
           | some l => l.isEmpty) then
    .error (ConfigurationError "At least one asset must be configured in assets.assets")
  else
    match framework.database with
    | none => .error (ConfigurationError "Missing required database configuration in framework.database")
    | some db =>
      if !(strTruthy db.provider) || !(strTruthy db.url) then
        .error (ConfigurationError "Missing required database configuration in framework.database")
      else if !(isValidDatabaseUrl env db.url) then
        .error (ConfigurationError "Invalid database URL format")
      else if strTruthy server.interactiveDomain &&
          !(isValidUrl env (coalesce server.interactiveDomain "")) then
        .error (ConfigurationError "Invalid URL format for server.interactiveDomain")
      else if strTruthy network.horizonUrl &&
          !(isValidUrl env (coalesce network.horizonUrl "")) then
        .error (ConfigurationError "Invalid URL format for network.horizonUrl")
      else if strTruthy (c.metadata.bind (fun m => m.tomlUrl)) &&
          !(isValidUrl env (coalesce (c.metadata.bind (fun m => m.tomlUrl)) "")) then
        .error (ConfigurationError "Invalid URL format for metadata.tomlUrl")
      else if !(["public", "testnet", "futurenet"].contains network.network) then
        .error (ConfigurationError ("Invalid network: " ++ network.network ++
          ". Must be one of: public, testnet, futurenet"))
      else .ok ()

/-- Embedding of `AnchorConfig.validate`: the leading `!this.config` guard
(`none` models a missing configuration object), then the check pipeline. -/
def validate (env : UrlEnv) (cfg : Option AnchorKitConfig) : Except AnchorKitError Unit :=
  match cfg with
  | none => .error (ConfigurationError "Configuration object is missing")
  | some c => validateConfig env c

/-! ## Concrete instances used to exercise the definitions -/

/-- URL environment in which the host `URL` constructor rejects everything
(scheme-prefixed database URLs are still accepted by `isValidDatabaseUrl`). -/
def env0 : UrlEnv := ⟨fun _ => none⟩

/-- A configured asset, as in the repository's test fixture. -/
def exAsset : Asset :=
  { code := "USDC"
    issuer := "GBBD47IF6LWK7P7MDEVSCWR7DPUWV3NY3DTQEVFL4NAT4AQH3ZLLFLA5" }

/-- A security section with all three mandatory secrets present. -/
def validSecurity : SecurityConfig :=
  { sep10SigningKey := some "secret-key-10"
    interactiveJwtSecret := some "jwt-secret"
    distributionAccountSecret := some "dist-secret" }

/-- The operational section produced by merging an empty input. -/
def defaultOperational : OperationalConfig :=
  { webhooksEnabled := true
    queueBackend := "memory"
    corsEnabled := true
    transactionRetentionDays := 90 }

/-- A structurally complete resolved configuration that passes every
validator check. -/
def validCfg : AnchorKitConfig :=
  { network := some { network := "testnet" }
    server := some {}
    security := some validSecurity
    assets := some { assets := some [exAsset] }
    kyc := none
    kycRequired := none
    operational := defaultOperational
    metadata := none
    framework :=
      some { database := some { provider := some "postgres"
                                url := some "postgresql://localhost:5432/anchor" } } }

/-- Input whose `network` key is present with an explicitly `undefined`
value. -/
def undefNetworkInput : PartialConfig := { network := .undef }

/-- Input whose `network` object carries an explicitly supplied empty-string
passphrase. -/
def emptyPassphraseInput : PartialConfig :=
  { network := .val { networkPassphrase := some "" } }

/-- Input supplying explicit (truthy network, falsy operational) values
everywhere the Defaulting Engine has a default. -/
def explicitValuesInput : PartialConfig :=
  { network := .val { network := some "public"
                      horizonUrl := some "https://horizon.stellar.org"
                      networkPassphrase := some "Custom Pass" }
    server := some { port := some 3000 }
    security := some validSecurity
    assets := some { assets := some [exAsset] }
    operational := some { webhooksEnabled := some false
                          queueBackend := some "redis"
                          corsEnabled := some false
                          transactionRetentionDays := some 0 } }

/-- Input supplying only one operational field, leaving the rest to their
defaults. -/
def partialOperationalInput : PartialConfig :=
  { operational := some { corsEnabled := some false } }

/-- Configuration with a KYC map for `USDC` only. -/
def kycCfg : AnchorKitConfig :=
  { validCfg with kycRequired := some [("USDC", ["first_name", "last_name", "email"])] }

/-- Valid configuration with the network section removed. -/
def noNetworkCfg : AnchorKitConfig := { validCfg with network := none }

/-- Valid configuration with both the server and framework sections removed
(the server check comes first in the fixed order). -/
def noServerFrameworkCfg : AnchorKitConfig :=
  { validCfg with server := none, framework := none }

/-- Valid configuration whose network identifier is outside the closed set. -/
def invalidNetCfg : AnchorKitConfig :=
  { validCfg with network := some { network := "invalidnet" } }

/-- Partial input selecting the `testnet` network with no passphrase. -/
def testnetInput : PartialConfig :=
  { network := .val { network := some "testnet" }
    security := some validSecurity }

/-- Partial input selecting an unrecognized network with no passphrase. -/
def privnetInput : PartialConfig :=
  { network := .val { network := some "privnet" } }

/-- A merged configuration tree in which the caller supplied the security
section already (shallowly) frozen: `Object.isFrozen` is true on the section
itself while its nested object is still mutable. -/
def frozenSuppliedTree : JsVal :=
  .obj false
    [("network", .obj false [("network", .prim "testnet")]),
     ("security", .obj true
        [("secrets", .obj false [("sep10SigningKey", .prim "secret-key-10")])]),
     ("operational", .obj false [("queueBackend", .prim "memory")])]

/-- A merged configuration tree containing no pre-frozen object. -/
def mutableInputTree : JsVal :=
  .obj false
    [("network", .obj false [("network", .prim "testnet")]),
     ("operational", .obj false [("queueBackend", .prim "memory")])]

/-! ## Lemmas about the Immutability Snapshotter -/

mutual

/-- After `deepFreeze`, a tree that contained no pre-frozen object is frozen
everywhere. -/
theorem noFrozen_deepFreeze (t : JsVal) (h : noFrozen t = true) :
    allFrozen (deepFreeze t) = true := by
  match t with
  | .prim s => simp [deepFreeze, allFrozen]
  | .obj frozen fs =>
    simp only [noFrozen, Bool.and_eq_true, Bool.not_eq_true'] at h
    simp only [deepFreeze, allFrozen, Bool.true_and]
    exact noFrozenFields_deepFreezeFields fs h.2

/-- Field-list version of `noFrozen_deepFreeze`. -/
theorem noFrozenFields_deepFreezeFields (fs : List (String × JsVal))
    (h : noFrozenFields fs = true) : allFrozenFields (deepFreezeFields fs) = true := by
  match fs with
  | [] => simp [deepFreezeFields, allFrozenFields]
  | (k, v) :: rest =>
    simp only [noFrozenFields, Bool.and_eq_true] at h
    simp only [deepFreezeFields, allFrozenFields, Bool.and_eq_true]
    refine ⟨?_, noFrozenFields_deepFreezeFields rest h.2⟩
    match v, h.1 with
    | .prim s, _ => simp [deepFreezeVal, allFrozen]
    | .obj false gs, hv =>
      have := noFrozen_deepFreeze (.obj false gs) hv
      simpa [deepFreeze, deepFreezeVal] using this

end

/-- Rewriting every field with a function that fixes each present value is
the identity. -/
theorem mapField_eq_self (key : String) (f : JsVal → JsVal)
    (fs : List (String × JsVal)) (h : ∀ pr ∈ fs, f pr.2 = pr.2) :
    mapField key f fs = fs := by
  induction fs with
  | nil => simp [mapField]
  | cons pr rest ih =>
    obtain ⟨k, v⟩ := pr
    simp only [mapField]
    by_cases hk : (k == key) = true
    · simp [hk, h (k, v) (List.mem_cons_self _ _)]
    · simp only [hk, Bool.false_eq_true, if_false, List.cons.injEq, true_and]
      exact ih fun pr hpr => h pr (List.mem_cons_of_mem _ hpr)

/-- Members of an everywhere-frozen field list are everywhere frozen. -/
theorem allFrozenFields_mem (fs : List (String × JsVal))
    (h : allFrozenFields fs = true) : ∀ pr ∈ fs, allFrozen pr.2 = true := by
  induction fs with
  | nil => intro pr hpr; cases hpr
  | cons q rest ih =>
    obtain ⟨k, v⟩ := q
    simp only [allFrozenFields, Bool.and_eq_true] at h
    intro pr hpr
    rcases List.mem_cons.mp hpr with hpr | hpr
    · subst hpr; exact h.1
    · exact ih h.2 pr hpr

/-- On an everywhere-frozen tree every attempted property write is failed or
silently ignored: the tree is unchanged. -/
theorem allFrozen_setAtPath (p : List String) (t : JsVal) (nv : JsVal)
    (h : allFrozen t = true) : setAtPath t p nv = t := by
  induction p generalizing t with
  | nil => cases t <;> simp [setAtPath]
  | cons k rest ih =>
    match t with
    | .prim s => simp [setAtPath]
    | .obj frozen fs =>
      simp only [allFrozen, Bool.and_eq_true] at h
      match rest with
      | [] => simp [setAtPath, h.1]
      | k2 :: rs =>
        simp only [setAtPath, JsVal.obj.injEq, true_and]
        exact mapField_eq_self _ _ _ fun pr hpr =>
          ih pr.2 (allFrozenFields_mem fs h.2 pr hpr)

/-- On an everywhere-frozen tree every attempted `delete` is failed or
silently ignored: the tree is unchanged. -/
theorem allFrozen_deleteAtPath (p : List String) (t : JsVal)
    (h : allFrozen t = true) : deleteAtPath t p = t := by
  induction p generalizing t with
  | nil => cases t <;> simp [deleteAtPath]
  | cons k rest ih =>
    match t with
    | .prim s => simp [deleteAtPath]
    | .obj frozen fs =>
      simp only [allFrozen, Bool.and_eq_true] at h
      match rest with
      | [] => simp [deleteAtPath, h.1]
      | k2 :: rs =>
        simp only [deleteAtPath, JsVal.obj.injEq, true_and]
        exact mapField_eq_self _ _ _ fun pr hpr =>
          ih pr.2 (allFrozenFields_mem fs h.2 pr hpr)

/-! ## Claims about the Immutability Snapshotter (C2) -/

/-- C2 (counterexample): on a merged configuration whose caller-supplied
security section was already (shallowly) frozen, `deepFreeze` skips the
frozen section, leaves its nested object mutable, and a property write to a
nested secret succeeds and is visible on a subsequent read — refuting the
claim that after construction every mutation anywhere in the configuration
tree fails or has no observable effect. -/
theorem c2_counterexample :
    getPath (deepFreeze frozenSuppliedTree)
        ["security", "secrets", "sep10SigningKey"] = some (.prim "secret-key-10") ∧
    getPath
        (setAtPath (deepFreeze frozenSuppliedTree)
          ["security", "secrets", "sep10SigningKey"] (.prim "evil"))
        ["security", "secrets", "sep10SigningKey"] = some (.prim "evil") ∧
    getPath
        (setAtPath (deepFreeze frozenSuppliedTree)
          ["security", "secrets", "sep10SigningKey"] (.prim "evil"))
        ["security", "secrets", "sep10SigningKey"] ≠
      getPath (deepFreeze frozenSuppliedTree)
        ["security", "secrets", "sep10SigningKey"] := by
  refine ⟨rfl, rfl, ?_⟩
  intro h
  rw [show getPath
        (setAtPath (deepFreeze frozenSuppliedTree)
          ["security", "secrets", "sep10SigningKey"] (.prim "evil"))
        ["security", "secrets", "sep10SigningKey"] = some (.prim "evil") from rfl] at h
  rw [show getPath (deepFreeze frozenSuppliedTree)
        ["security", "secrets", "sep10SigningKey"] =
      some (.prim "secret-key-10") from rfl] at h
  simp at h

/-- C2 (amended): provided the caller-supplied configuration tree contains no
already-frozen object, `deepFreeze` freezes every reachable object, and every
attempted property write or key deletion anywhere in the frozen tree fails or
has no observable effect; a sub-object nested inside a caller-supplied
already-frozen object, however, may remain mutable (see the counterexample). -/
theorem c2_amended_freeze_guarantee (t : JsVal) (h : noFrozen t = true)
    (p : List String) (nv : JsVal) :
    allFrozen (deepFreeze t) = true ∧
    setAtPath (deepFreeze t) p nv = deepFreeze t ∧
    deleteAtPath (deepFreeze t) p = deepFreeze t :=
  ⟨noFrozen_deepFreeze t h,
   allFrozen_setAtPath p _ nv (noFrozen_deepFreeze t h),
   allFrozen_deleteAtPath p _ (noFrozen_deepFreeze t h)⟩

/-- C2 (witness): the amended guarantee at a concrete merged configuration
tree with no pre-frozen object and a concrete attempted overwrite of the
queue backend. -/
theorem c2_amended_witness :
    noFrozen mutableInputTree = true ∧
    setAtPath (deepFreeze mutableInputTree) ["operational", "queueBackend"]
        (.prim "redis") = deepFreeze mutableInputTree ∧
    deleteAtPath (deepFreeze mutableInputTree) ["operational", "queueBackend"] =
      deepFreeze mutableInputTree :=
  ⟨by decide,
   (c2_amended_freeze_guarantee mutableInputTree (by decide)
      ["operational", "queueBackend"] (.prim "redis")).2.1,
   (c2_amended_freeze_guarantee mutableInputTree (by decide)
      ["operational", "queueBackend"] (.prim "redis")).2.2⟩

/-! ## Claims about the Defaulting Engine (C1, C4, C6) -/

/-- C1 (counterexample): on the empty input `{}` — whose top-level `network`
key is entirely absent — the Defaulting Engine does not leave the network
section absent: it fabricates a fully defaulted network object (`testnet`
with its default passphrase). -/
theorem c1_counterexample :
    (mergeWithDefaults emptyInput).network ≠ none ∧
    (mergeWithDefaults emptyInput).network =
      some { network := "testnet"
             horizonUrl := none
             networkPassphrase := some "Test SDF Network ; September 2015" } := by
  constructor <;> decide

/-- C1 (amended): the network section is left absent in the resolved
configuration exactly when the `network` key is present with an explicitly
`undefined` value; when the key is entirely absent, a defaulted network
object (`testnet`, default testnet passphrase, no horizon URL) is produced
instead. -/
theorem c1_amended_network_absence (input : PartialConfig) :
    (input.network = .undef → (mergeWithDefaults input).network = none) ∧
    (input.network = .absent →
      (mergeWithDefaults input).network =
        some { network := "testnet"
               horizonUrl := none
               networkPassphrase := some "Test SDF Network ; September 2015" }) := by
  constructor
  · intro h
    simp [mergeWithDefaults, mergeNetwork, h]
  · intro h
    simp [mergeWithDefaults, mergeNetwork, h, orDefaultStr, orElseTruthy, strTruthy,
      defaultNetworkPassphrases]

/-- C1 (witness): the amended behaviour at the two concrete inputs. -/
theorem c1_amended_witness :
    (mergeWithDefaults undefNetworkInput).network = none ∧
    (mergeWithDefaults emptyInput).network =
      some { network := "testnet"
             horizonUrl := none
             networkPassphrase := some "Test SDF Network ; September 2015" } :=
  ⟨(c1_amended_network_absence undefNetworkInput).1 rfl,
   (c1_amended_network_absence emptyInput).2 rfl⟩

/-- C4 (counterexample): an explicitly supplied falsy value is overwritten by
the Defaulting Engine: a caller-supplied empty-string network passphrase is
replaced by the default testnet passphrase in the resolved configuration. -/
theorem c4_counterexample :
    ((mergeWithDefaults emptyPassphraseInput).network.bind
        (fun n => n.networkPassphrase)) ≠ some "" ∧
    ((mergeWithDefaults emptyPassphraseInput).network.bind
        (fun n => n.networkPassphrase)) = some "Test SDF Network ; September 2015" := by
  constructor <;> decide

/-- C4 (amended): the Defaulting Engine never overwrites an explicitly
supplied value, with one family of exceptions forced by the counterexample:
the network sub-fields `network` and `networkPassphrase` treat an explicitly
supplied falsy (empty-string) value as absent and replace it with the
default.  Pass-through sections are preserved exactly (explicit falsy values
such as an empty asset list included), every operational field preserves any
explicitly supplied value (explicit `false` and `0` included), and the
network identifier, horizon URL, and passphrase are preserved whenever
truthy. -/
theorem c4_amended_no_truthy_overwrite (input : PartialConfig) :
    ((mergeWithDefaults input).server = input.server ∧
     (mergeWithDefaults input).security = input.security ∧
     (mergeWithDefaults input).assets = input.assets ∧
     (mergeWithDefaults input).kyc = input.kyc ∧
     (mergeWithDefaults input).kycRequired = input.kycRequired ∧
     (mergeWithDefaults input).metadata = input.metadata ∧
     (mergeWithDefaults input).framework = input.framework) ∧
    (∀ v, input.network = .val v →
      ∃ n, (mergeWithDefaults input).network = some n ∧
        n.horizonUrl = v.horizonUrl ∧
        (∀ s, v.network = some s → s ≠ "" → n.network = s) ∧
        (∀ s, v.networkPassphrase = some s → s ≠ "" →
          n.networkPassphrase = some s)) ∧
    (∀ oi, input.operational = some oi →
      (∀ b, oi.webhooksEnabled = some b →
        (mergeWithDefaults input).operational.webhooksEnabled = b) ∧
      (∀ s, oi.queueBackend = some s →
        (mergeWithDefaults input).operational.queueBackend = s) ∧
      (∀ b, oi.corsEnabled = some b →
        (mergeWithDefaults input).operational.corsEnabled = b) ∧
      (∀ d, oi.transactionRetentionDays = some d →
        (mergeWithDefaults input).operational.transactionRetentionDays = d) ∧
      (mergeWithDefaults input).operational.name = oi.name ∧
      (mergeWithDefaults input).operational.website = oi.website ∧
      (mergeWithDefaults input).operational.supportEmail = oi.supportEmail ∧
      (mergeWithDefaults input).operational.address = oi.address ∧
      (mergeWithDefaults input).operational.redisUrl = oi.redisUrl) := by
  refine ⟨⟨rfl, rfl, rfl, rfl, rfl, rfl, rfl⟩, ?_, ?_⟩
  · intro v hv
    refine ⟨{ network := orDefaultStr v.network "testnet"
              horizonUrl := v.horizonUrl
              networkPassphrase := orElseTruthy v.networkPassphrase
                (defaultNetworkPassphrases (orDefaultStr v.network "testnet")) },
            ?_, rfl, ?_, ?_⟩
    · simp [mergeWithDefaults, mergeNetwork, hv]
    · intro s hs hne
      simp [orDefaultStr, hs, hne]
    · intro s hs hne
      simp [orElseTruthy, strTruthy, hs, hne]
  · intro oi hoi
    refine ⟨?_, ?_, ?_, ?_, ?_, ?_, ?_, ?_, ?_⟩
    · intro b hb; simp [mergeWithDefaults, mergeOperational, coalesce, hoi, hb]
    · intro s hs; simp [mergeWithDefaults, mergeOperational, coalesce, hoi, hs]
    · intro b hb; simp [mergeWithDefaults, mergeOperational, coalesce, hoi, hb]
    · intro d hd; simp [mergeWithDefaults, mergeOperational, coalesce, hoi, hd]
    · simp [mergeWithDefaults, mergeOperational, hoi]
    · simp [mergeWithDefaults, mergeOperational, hoi]
    · simp [mergeWithDefaults, mergeOperational, hoi]
    · simp [mergeWithDefaults, mergeOperational, hoi]
    · simp [mergeWithDefaults, mergeOperational, hoi]

/-- C4 (witness): the amended preservation at a concrete input supplying a
truthy passphrase, explicit `false`/`0` operational values, and a `redis`
queue backend. -/
theorem c4_amended_witness :
    (mergeWithDefaults explicitValuesInput).server = explicitValuesInput.server ∧
    (mergeWithDefaults explicitValuesInput).operational.webhooksEnabled = false ∧
    (mergeWithDefaults explicitValuesInput).operational.queueBackend = "redis" ∧
    (mergeWithDefaults explicitValuesInput).operational.transactionRetentionDays = 0 ∧
    ∃ n, (mergeWithDefaults explicitValuesInput).network = some n ∧
      n.networkPassphrase = some "Custom Pass" := by
  have h := c4_amended_no_truthy_overwrite explicitValuesInput
  refine ⟨h.1.1, ?_, ?_, ?_, ?_⟩
  · exact (h.2.2 _ rfl).1 false rfl
  · exact (h.2.2 _ rfl).2.1 "redis" rfl
  · exact (h.2.2 _ rfl).2.2.2.1 0 rfl
  · obtain ⟨n, hn, _, _, hpp⟩ := h.2.1 _ rfl
    exact ⟨n, hn, hpp "Custom Pass" rfl (by decide)⟩

/-- C6: for every partial input the resolved configuration carries an
operational section in which `webhooksEnabled`, `queueBackend`,
`corsEnabled`, and `transactionRetentionDays` default to `true`, `"memory"`,
`true`, and `90` when unsupplied; every explicitly supplied operational field
(explicit `false`/`0` included) overrides its default; and fields with no
supplied value and no listed default are left `undefined` (`none`). -/
theorem c6_operational_defaults (input : PartialConfig) :
    (input.operational = none →
      (mergeWithDefaults input).operational =
        { name := none, website := none, supportEmail := none, address := none
          webhooksEnabled := true, queueBackend := "memory", redisUrl := none
          corsEnabled := true, transactionRetentionDays := 90 }) ∧
    (∀ oi, input.operational = some oi →
      (oi.webhooksEnabled = none →
        (mergeWithDefaults input).operational.webhooksEnabled = true) ∧
      (∀ b, oi.webhooksEnabled = some b →
        (mergeWithDefaults input).operational.webhooksEnabled = b) ∧
      (oi.queueBackend = none →
        (mergeWithDefaults input).operational.queueBackend = "memory") ∧
      (∀ s, oi.queueBackend = some s →
        (mergeWithDefaults input).operational.queueBackend = s) ∧
      (oi.corsEnabled = none →
        (mergeWithDefaults input).operational.corsEnabled = true) ∧
      (∀ b, oi.corsEnabled = some b →
        (mergeWithDefaults input).operational.corsEnabled = b) ∧
      (oi.transactionRetentionDays = none →
        (mergeWithDefaults input).operational.transactionRetentionDays = 90) ∧
      (∀ d, oi.transactionRetentionDays = some d →
        (mergeWithDefaults input).operational.transactionRetentionDays = d) ∧
      (mergeWithDefaults input).operational.name = oi.name ∧
      (mergeWithDefaults input).operational.redisUrl = oi.redisUrl) := by
  constructor
  · intro h
    simp [mergeWithDefaults, mergeOperational, h, coalesce]
  · intro oi hoi
    refine ⟨?_, ?_, ?_, ?_, ?_, ?_, ?_, ?_, ?_, ?_⟩
    · intro h; simp [mergeWithDefaults, mergeOperational, coalesce, hoi, h]
    · intro b hb; simp [mergeWithDefaults, mergeOperational, coalesce, hoi, hb]
    · intro h; simp [mergeWithDefaults, mergeOperational, coalesce, hoi, h]
    · intro s hs; simp [mergeWithDefaults, mergeOperational, coalesce, hoi, hs]
    · intro h; simp [mergeWithDefaults, mergeOperational, coalesce, hoi, h]
    · intro b hb; simp [mergeWithDefaults, mergeOperational, coalesce, hoi, hb]
    · intro h; simp [mergeWithDefaults, mergeOperational, coalesce, hoi, h]
    · intro d hd; simp [mergeWithDefaults, mergeOperational, coalesce, hoi, hd]
    · simp [mergeWithDefaults, mergeOperational, hoi]
    · simp [mergeWithDefaults, mergeOperational, hoi]

/-- C6 (witness): the defaults on the empty input and the override/default
mix on an input supplying only `corsEnabled := false`. -/
theorem c6_witness :
    (mergeWithDefaults emptyInput).operational =
      { name := none, website := none, supportEmail := none, address := none
        webhooksEnabled := true, queueBackend := "memory", redisUrl := none
        corsEnabled := true, transactionRetentionDays := 90 } ∧
    (mergeWithDefaults partialOperationalInput).operational.corsEnabled = false ∧
    (mergeWithDefaults partialOperationalInput).operational.webhooksEnabled = true := by
  refine ⟨(c6_operational_defaults emptyInput).1 rfl, ?_, ?_⟩
  · exact ((c6_operational_defaults partialOperationalInput).2 _ rfl).2.2.2.2.2.1 false rfl
  · exact ((c6_operational_defaults partialOperationalInput).2 _ rfl).1 rfl

/-! ## Claims about the facade lookups (C5, C8) -/

/-- C5: for a manager constructed with network identifier `testnet` and no
explicit passphrase, `isNetworkPassphrase` returns `true` exactly on the
fixed testnet passphrase; analogously for `public` and `futurenet`; and for
an unrecognized (truthy) identifier with no configured passphrase the
comparator returns `false` on every candidate (and, being a total function,
never raises). -/
theorem c5_passphrase_fallback (input : PartialConfig) (v : PartialNetworkConfig)
    (hv : input.network = .val v) (hp : v.networkPassphrase = none) (p : String) :
    (v.network = some "testnet" →
      isNetworkPassphrase (mergeWithDefaults input) p =
        (p == "Test SDF Network ; September 2015")) ∧
    (v.network = some "public" →
      isNetworkPassphrase (mergeWithDefaults input) p =
        (p == "Public Global Stellar Network ; September 2015")) ∧
    (v.network = some "futurenet" →
      isNetworkPassphrase (mergeWithDefaults input) p =
        (p == "Test SDF Future Network ; Fall 2022")) ∧
    (∀ ident, v.network = some ident →
      ident ∉ (["public", "testnet", "futurenet"] : List String) → ident ≠ "" →
      isNetworkPassphrase (mergeWithDefaults input) p = false) := by
  refine ⟨?_, ?_, ?_, ?_⟩
  · intro h
    simp [mergeWithDefaults, mergeNetwork, hv, h, hp, orDefaultStr, orElseTruthy,
      strTruthy, defaultNetworkPassphrases, isNetworkPassphrase, coalesce]
  · intro h
    simp [mergeWithDefaults, mergeNetwork, hv, h, hp, orDefaultStr, orElseTruthy,
      strTruthy, defaultNetworkPassphrases, isNetworkPassphrase, coalesce]
  · intro h
    simp [mergeWithDefaults, mergeNetwork, hv, h, hp, orDefaultStr, orElseTruthy,
      strTruthy, defaultNetworkPassphrases, isNetworkPassphrase, coalesce]
  · intro ident hs hnotin hne
    have hd : defaultNetworkPassphrases ident = none := by
      unfold defaultNetworkPassphrases
      split <;> simp_all
    simp only [mergeWithDefaults, mergeNetwork, hv, hp, orDefaultStr, hne,
      orElseTruthy, strTruthy, hd, isNetworkPassphrase]
    simp only [hs, if_neg]
    rw [if_neg (by simp [hne, hd, strTruthy, orElseTruthy])]
    have hb : (if (ident == "") = true then "testnet" else ident) = ident := by
      simp [hne]
    rw [hb]
    split <;> simp_all

/-- C5 (witness): the fallback at the concrete testnet input and the
unrecognized `privnet` input. -/
theorem c5_witness :
    isNetworkPassphrase (mergeWithDefaults testnetInput)
        "Test SDF Network ; September 2015" = true ∧
    isNetworkPassphrase (mergeWithDefaults testnetInput) "Wrong Passphrase" = false ∧
    isNetworkPassphrase (mergeWithDefaults privnetInput)
        "Test SDF Network ; September 2015" = false := by
  refine ⟨?_, ?_, ?_⟩
  · rw [(c5_passphrase_fallback testnetInput _ rfl rfl
      "Test SDF Network ; September 2015").1 rfl]
    decide
  · rw [(c5_passphrase_fallback testnetInput _ rfl rfl "Wrong Passphrase").1 rfl]
    decide
  · exact (c5_passphrase_fallback privnetInput _ rfl rfl
      "Test SDF Network ; September 2015").2.2.2 "privnet" rfl (by decide) (by decide)

/-- C8: `getKycRequiredFields` is a total function (never raises) returning
the configured list for a mapped code, and the empty list both when the
configuration has no `kycRequired` map at all and when the map exists but
the queried code is unmapped. -/
theorem c8_kyc_lookup (c : AnchorKitConfig) (code : String) :
    (c.kycRequired = none → getKycRequiredFields c code = []) ∧
    (∀ m, c.kycRequired = some m → m.lookup code = none →
      getKycRequiredFields c code = []) ∧
    (∀ m fields, c.kycRequired = some m → m.lookup code = some fields →
      getKycRequiredFields c code = fields) := by
  refine ⟨?_, ?_, ?_⟩
  · intro h; simp [getKycRequiredFields, h]
  · intro m hm hl; simp [getKycRequiredFields, hm, hl]
  · intro m fields hm hl; simp [getKycRequiredFields, hm, hl]

/-- C8 (witness): the three cases at concrete configurations. -/
theorem c8_witness :
    getKycRequiredFields validCfg "USDC" = [] ∧
    getKycRequiredFields kycCfg "NGNC" = [] ∧
    getKycRequiredFields kycCfg "USDC" = ["first_name", "last_name", "email"] :=
  ⟨(c8_kyc_lookup validCfg "USDC").1 rfl,
   (c8_kyc_lookup kycCfg "NGNC").2.1 _ rfl rfl,
   (c8_kyc_lookup kycCfg "USDC").2.2 _ _ rfl rfl⟩

/-! ## Claims about the Validator (C3, C7, C10) -/

/-- C3: for every configuration missing at least one of the five mandatory
sections, `validate` raises a Configuration error whose message names the
first missing section in the fixed order network, server, security, assets,
framework — regardless of everything else in the configuration, so no later
check (secrets, asset list, database, URLs, network identifier) is reached
first. -/
theorem c3_missing_section_first_error (env : UrlEnv) (c : AnchorKitConfig) :
    (c.network = none →
      validate env (some c) =
        .error (ConfigurationError "Missing required top-level field: network")) ∧
    (c.network ≠ none → c.server = none →
      validate env (some c) =
        .error (ConfigurationError "Missing required top-level field: server")) ∧
    (c.network ≠ none → c.server ≠ none → c.security = none →
      validate env (some c) =
        .error (ConfigurationError "Missing required top-level field: security")) ∧
    (c.network ≠ none → c.server ≠ none → c.security ≠ none → c.assets = none →
      validate env (some c) =
        .error (ConfigurationError "Missing required top-level field: assets")) ∧
    (c.network ≠ none → c.server ≠ none → c.security ≠ none → c.assets ≠ none →
      c.framework = none →
      validate env (some c) =
        .error (ConfigurationError "Missing required top-level field: framework")) := by
  refine ⟨?_, ?_, ?_, ?_, ?_⟩
  · intro h
    simp [validate, validateConfig, h]
  · intro h1 h2
    obtain ⟨n, hn⟩ := Option.ne_none_iff_exists'.mp h1
    simp [validate, validateConfig, hn, h2]
  · intro h1 h2 h3
    obtain ⟨n, hn⟩ := Option.ne_none_iff_exists'.mp h1
    obtain ⟨s, hs⟩ := Option.ne_none_iff_exists'.mp h2
    simp [validate, validateConfig, hn, hs, h3]
  · intro h1 h2 h3 h4
    obtain ⟨n, hn⟩ := Option.ne_none_iff_exists'.mp h1
    obtain ⟨s, hs⟩ := Option.ne_none_iff_exists'.mp h2
    obtain ⟨sec, hsec⟩ := Option.ne_none_iff_exists'.mp h3
    simp [validate, validateConfig, hn, hs, hsec, h4]
  · intro h1 h2 h3 h4 h5
    obtain ⟨n, hn⟩ := Option.ne_none_iff_exists'.mp h1
    obtain ⟨s, hs⟩ := Option.ne_none_iff_exists'.mp h2
    obtain ⟨sec, hsec⟩ := Option.ne_none_iff_exists'.mp h3
    obtain ⟨a, ha⟩ := Option.ne_none_iff_exists'.mp h4
    simp [validate, validateConfig, hn, hs, hsec, ha, h5]

/-- C3 (witness): a configuration missing only the network section reports
the network error; one missing both the server and framework sections
reports the server error (the first of the two in the fixed order), even
though its security secrets are intact. -/
theorem c3_witness :
    validate env0 (some noNetworkCfg) =
      .error (ConfigurationError "Missing required top-level field: network") ∧
    validate env0 (some noServerFrameworkCfg) =
      .error (ConfigurationError "Missing required top-level field: server") :=
  ⟨(c3_missing_section_first_error env0 noNetworkCfg).1 rfl,
   (c3_missing_section_first_error env0 noServerFrameworkCfg).2.1
      (by decide) rfl⟩

/-- C7: for every configuration that passes all earlier validator checks,
the network-identifier check is the final one: an identifier outside the
closed set {public, testnet, futurenet} raises a Configuration error whose
message contains the literal offending value, and an identifier inside the
set makes `validate` return successfully. -/
theorem c7_network_identifier_check (env : UrlEnv) (c : AnchorKitConfig)
    (network : NetworkConfig) (server : ServerConfig) (security : SecurityConfig)
    (assets : AssetsConfig) (framework : FrameworkConfig) (db : DatabaseConfig)
    (l : List Asset)
    (hn : c.network = some network) (hs : c.server = some server)
    (hsec : c.security = some security) (ha : c.assets = some assets)
    (hf : c.framework = some framework)
    (h1 : strTruthy security.sep10SigningKey = true)
    (h2 : strTruthy security.interactiveJwtSecret = true)
    (h3 : strTruthy security.distributionAccountSecret = true)
    (h4 : assets.assets = some l) (h4ne : l ≠ [])
    (h5 : framework.database = some db)
    (h6 : strTruthy db.provider = true)
    (h7 : strTruthy db.url = true)
    (h8 : isValidDatabaseUrl env db.url = true)
    (h9 : strTruthy server.interactiveDomain = true →
      isValidUrl env (coalesce server.interactiveDomain "") = true)
    (h10 : strTruthy network.horizonUrl = true →
      isValidUrl env (coalesce network.horizonUrl "") = true)
    (h11 : strTruthy (c.metadata.bind (fun m => m.tomlUrl)) = true →
      isValidUrl env (coalesce (c.metadata.bind (fun m => m.tomlUrl)) "") = true) :
    (network.network ∉ (["public", "testnet", "futurenet"] : List String) →
      validate env (some c) =
        .error (ConfigurationError ("Invalid network: " ++ network.network ++
          ". Must be one of: public, testnet, futurenet"))) ∧
    (network.network ∈ (["public", "testnet", "futurenet"] : List String) →
      validate env (some c) = .ok ()) := by
  have hle : l.isEmpty = false := by
    cases l with
    | nil => exact absurd rfl h4ne
    | cons a as => rfl
  have e9 : (strTruthy server.interactiveDomain &&
      !(isValidUrl env (coalesce server.interactiveDomain ""))) = false := by
    cases hsd : strTruthy server.interactiveDomain
    · simp
    · simp [h9 hsd]
  have e10 : (strTruthy network.horizonUrl &&
      !(isValidUrl env (coalesce network.horizonUrl ""))) = false := by
    cases hsd : strTruthy network.horizonUrl
    · simp
    · simp [h10 hsd]
  have e11 : (strTruthy (c.metadata.bind (fun m => m.tomlUrl)) &&
      !(isValidUrl env (coalesce (c.metadata.bind (fun m => m.tomlUrl)) ""))) = false := by
    cases hsd : strTruthy (c.metadata.bind (fun m => m.tomlUrl))
    · simp
    · simp [h11 hsd]
  constructor
  · intro hmem
    obtain ⟨m1, m2, m3⟩ :
        ¬network.network = "public" ∧ ¬network.network = "testnet" ∧
          ¬network.network = "futurenet" := by simpa using hmem
    simp [validate, validateConfig, hn, hs, hsec, ha, hf, h1, h2, h3, h4, hle,
      h5, h6, h7, h8, e9, e10, e11, m1, m2, m3]
  · intro hmem
    have hd : network.network = "public" ∨ network.network = "testnet" ∨
        network.network = "futurenet" := by simpa using hmem
    rcases hd with hd | hd | hd <;>
      simp [validate, validateConfig, hn, hs, hsec, ha, hf, h1, h2, h3, h4, hle,
        h5, h6, h7, h8, e9, e10, e11, hd]

/-- C7 (witness): the complete valid configuration (identifier `testnet`)
validates successfully, and the same configuration with identifier
`invalidnet` fails with the message echoing the offending value. -/
theorem c7_witness :
    validate env0 (some validCfg) = .ok () ∧
    validate env0 (some invalidNetCfg) =
      .error (ConfigurationError
        "Invalid network: invalidnet. Must be one of: public, testnet, futurenet") := by
  constructor
  · exact (c7_network_identifier_check env0 validCfg _ _ _ _ _ _ [exAsset]
      rfl rfl rfl rfl rfl rfl rfl rfl rfl (by decide) rfl rfl rfl (by decide)
      (by intro h; simp [validSecurity] at h; exact absurd h (by decide))
      (by intro h; exact absurd h (by decide))
      (by intro h; exact absurd h (by decide))).2 (by decide)
  · exact (c7_network_identifier_check env0 invalidNetCfg _ _ _ _ _ _ [exAsset]
      rfl rfl rfl rfl rfl rfl rfl rfl rfl (by decide) rfl rfl rfl (by decide)
      (by intro h; exact absurd h (by decide))
      (by intro h; exact absurd h (by decide))
      (by intro h; exact absurd h (by decide))).1 (by decide)

set_option maxHeartbeats 1600000 in
/-- Every branch of the check pipeline produces either success or an error
other than the missing-configuration message. -/
theorem validateConfig_ne_missing (env : UrlEnv) (c : AnchorKitConfig) :
    validateConfig env c ≠
      .error (ConfigurationError "Configuration object is missing") := by
  have hlen : ∀ s : String,
      ("Invalid network: " ++ s ++ ". Must be one of: public, testnet, futurenet") ≠
        "Configuration object is missing" := by
    intro s h
    have hl := congrArg String.length h
    rw [String.length_append, String.length_append] at hl
    have e1 : "Invalid network: ".length = 17 := rfl
    have e2 : ". Must be one of: public, testnet, futurenet".length = 44 := rfl
    have e3 : "Configuration object is missing".length = 31 := rfl
    rw [e1, e2, e3] at hl
    omega
  unfold validateConfig
  repeat' split
  all_goals intro h
  all_goals try exact Except.noConfusion h
  all_goals injection h with h
  all_goals rw [ConfigurationError, ConfigurationError] at h
  all_goals injection h with h1 h2 h3 h4
  all_goals first
    | simp at h3
    | exact hlen _ h3

/-- C10: the constructor replaces a `null`/absent input with the empty
object and always produces a merged configuration object, so the manager's
`config` field is never `null`; consequently the validator's first guard is
unreachable and `validate` never raises with the message "Configuration
object is missing" on a constructed manager. -/
theorem c10_first_guard_unreachable (input : Option PartialConfig) (env : UrlEnv) :
    constructConfig input ≠ none ∧
    validate env (constructConfig input) ≠
      .error (ConfigurationError "Configuration object is missing") := by
  constructor
  · simp [constructConfig]
  · have h : validate env (constructConfig input) =
        validateConfig env (mergeWithDefaults (coalesce input emptyInput)) := rfl
    rw [h]
    exact validateConfig_ne_missing env _

/-! ## Claim about the error taxonomy (C9) -/

/-- C9: the serialized form of every error in the taxonomy always carries the
machine code under `error` and the message under `message`; the context map
is included exactly when the process runs in development-like mode (and
omitted otherwise); and the Configuration error kind carries fixed status
`500` and fixed code `"INVALID_CONFIG"`. -/
theorem c9_error_serialization (e : AnchorKitError) (penv : ProcessEnv)
    (msg : String) (ctx : Option ContextMap) :
    (toJSON penv e).error = e.errorCode ∧
    (toJSON penv e).message = e.message ∧
    ((toJSON penv e).context = some e.context ↔ isDevelopmentMode penv = true) ∧
    ((toJSON penv e).context = none ↔ isDevelopmentMode penv = false) ∧
    (ConfigurationError msg ctx).statusCode = 500 ∧
    (ConfigurationError msg ctx).errorCode = "INVALID_CONFIG" ∧
    (ConfigurationError msg ctx).message = msg := by
  refine ⟨rfl, rfl, ?_, ?_, rfl, rfl, rfl⟩
  · cases hd : isDevelopmentMode penv <;> simp [toJSON, hd]
  · cases hd : isDevelopmentMode penv <;> simp [toJSON, hd]

/-- C9 (witness): serialization of a concrete Configuration error in
development mode (context included) and in production mode (context
omitted). -/
theorem c9_witness :
    (toJSON (ProcessEnv.withEnv (some "development"))
        (ConfigurationError "Invalid database URL format")).context =
      some none ∧
    (toJSON (ProcessEnv.withEnv (some "production"))
        (ConfigurationError "Invalid database URL format")).context = none ∧
    (ConfigurationError "Invalid database URL format").statusCode = 500 ∧
    (ConfigurationError "Invalid database URL format").errorCode = "INVALID_CONFIG" :=
  ⟨(c9_error_serialization (ConfigurationError "Invalid database URL format")
      (ProcessEnv.withEnv (some "development")) "m" none).2.2.1.mpr rfl,
   (c9_error_serialization (ConfigurationError "Invalid database URL format")
      (ProcessEnv.withEnv (some "production")) "m" none).2.2.2.1.mpr rfl,
   (c9_error_serialization (ConfigurationError "m")
      ProcessEnv.noProcess "Invalid database URL format" none).2.2.2.2.1,
   (c9_error_serialization (ConfigurationError "m")
      ProcessEnv.noProcess "Invalid database URL format" none).2.2.2.2.2.1⟩

/-- C10 (witness): the guard unreachability at the concrete `null`
constructor input and the concrete URL environment. -/
theorem c10_witness :
    constructConfig none ≠ none ∧
    validate env0 (constructConfig none) ≠
      .error (ConfigurationError "Configuration object is missing") :=
  c10_first_guard_unreachable none env0

end AnchorKit
